import Mathlib

/-!
Shallow embedding of the VADI grocery backend's core business logic
(cart pricing, stock ledger, checkout, order lifecycle, payments,
addresses), translated from the JavaScript route handlers and Mongoose
schemas, together with theorems settling the frozen claims about it.

Conventions of the embedding:
  - monetary values are rationals; JS `Math.round(x * 100) / 100` becomes
    `round2`;
  - Mongo documents become Lean structures; a collection is a `List`;
  - `updateOne` / `findOneAndUpdate` update the first matching document
    (all ids are unique in the store, matching Mongo `_id` semantics);
  - a Mongoose `save()` runs document validation first and the schema's
    pre-save hooks second (validation hooks run before save hooks), and
    is modelled as an `Except`-valued function; `findOneAndUpdate`
    bypasses both the pre-save hooks and (by default) validation;
  - writes issued inside a `mongoose` session are rolled back when the
    transaction aborts; writes issued without the session persist even
    when the surrounding transaction aborts.
-/

namespace Vadi

/-- JS `Math.round`: rounds half toward positive infinity. -/
def jsRound (q : ℚ) : ℤ := ⌊q + 1/2⌋

/-- Two-decimal rounding as written in the source: `Math.round(x * 100) / 100`. -/
def round2 (q : ℚ) : ℚ := (jsRound (q * 100) : ℚ) / 100

/-- Tax parameters carried by a product / line item (`tax` sub-document). -/
structure Tax where
  gstPercent : ℚ
  inclusive : Bool
deriving Repr, DecidableEq

/-- A cart (or order) line item: the snapshot fields the business logic reads.
Mirrors `CartItemSchema` / `OrderItemSchema`. -/
structure CartItem where
  product : ℕ
  variantId : ℕ
  unitPrice : ℚ
  mrp : Option ℚ
  discount : ℚ
  tax : Option Tax
  quantity : ℕ
  subtotal : ℚ
  isActive : Bool
deriving Repr, DecidableEq

/-- JS truthiness of an optional numeric field (absent and `0` are falsy). -/
def qTruthy : Option ℚ → Bool
  | none => false
  | some m => m != 0

/-- Aggregate totals as returned by `calculateCartTotals` in `cartRoute.js`. -/
structure CartTotals where
  totalItems : ℕ
  totalQuantity : ℕ
  subtotal : ℚ
  totalDiscount : ℚ
  taxAmount : ℚ
  grandTotal : ℚ
deriving Repr, DecidableEq

/-- Accumulator of the `items.forEach` loop in `calculateCartTotals`. -/
structure TotalsAcc where
  totalItems : ℕ
  totalQuantity : ℕ
  subtotal : ℚ
  totalDiscount : ℚ
  taxAmount : ℚ
deriving Repr, DecidableEq

/-- Discount added for one active item:
`if (item.discount > 0 && item.mrp) totalDiscount += (item.mrp - item.unitPrice) * item.quantity`.
The `item.mrp` test is JS truthiness, so a zero mrp contributes nothing. -/
def discountContrib (item : CartItem) : ℚ :=
  if 0 < item.discount ∧ qTruthy item.mrp then
    (item.mrp.getD 0 - item.unitPrice) * item.quantity
  else 0

/-- Tax added for one active item:
`if (item.tax && item.tax.gstPercent > 0)` then the inclusive formula
`unitPrice - unitPrice / (1 + gstPercent / 100)` or the exclusive formula
`unitPrice * gstPercent / 100`, each times the quantity. -/
def taxContrib (item : CartItem) : ℚ :=
  match item.tax with
  | none => 0
  | some t =>
    if 0 < t.gstPercent then
      if t.inclusive then
        (item.unitPrice - item.unitPrice / (1 + t.gstPercent / 100)) * item.quantity
      else
        item.unitPrice * t.gstPercent / 100 * item.quantity
    else 0

/-- Body of the `items.forEach` loop of `calculateCartTotals`: inactive items
are skipped entirely; an active item bumps the count, quantity, subtotal,
discount and tax accumulators. -/
def cartTotalsStep (acc : TotalsAcc) (item : CartItem) : TotalsAcc :=
  if item.isActive then
    { totalItems := acc.totalItems + 1
      totalQuantity := acc.totalQuantity + item.quantity
      subtotal := acc.subtotal + item.unitPrice * item.quantity
      totalDiscount := acc.totalDiscount + discountContrib item
      taxAmount := acc.taxAmount + taxContrib item }
  else acc

/-- `items.some((item) => item.tax && !item.tax.inclusive)` — note this ranges
over all items (also inactive ones) and ignores `gstPercent`. -/
def hasNonInclusiveTax (items : List CartItem) : Bool :=
  items.any fun i =>
    match i.tax with
    | some t => !t.inclusive
    | none => false

/-- `calculateCartTotals` from `cartRoute.js`: accumulate over the items, then
`grandTotal = hasNonInclusiveTax ? subtotal + taxAmount : subtotal`, and round
every monetary output to two decimals. -/
def calculateCartTotals (items : List CartItem) : CartTotals :=
  let acc := items.foldl cartTotalsStep ⟨0, 0, 0, 0, 0⟩
  let grandTotal := if hasNonInclusiveTax items then acc.subtotal + acc.taxAmount else acc.subtotal
  { totalItems := acc.totalItems
    totalQuantity := acc.totalQuantity
    subtotal := round2 acc.subtotal
    totalDiscount := round2 acc.totalDiscount
    taxAmount := round2 acc.taxAmount
    grandTotal := round2 grandTotal }

/-! Spec-side totals, written from the words of spec §4.1 (for the refinement
statement of claim C3). -/

/-- Modelled from the spec: per-item tax, `unitPrice × gstPercent / 100` if
exclusive, `unitPrice − unitPrice / (1 + gstPercent / 100)` if inclusive, each
times quantity; no tax parameters means no tax. -/
def specTaxPerItem (i : CartItem) : ℚ :=
  match i.tax with
  | none => 0
  | some t =>
    if t.inclusive then
      (i.unitPrice - i.unitPrice / (1 + t.gstPercent / 100)) * i.quantity
    else
      i.unitPrice * t.gstPercent / 100 * i.quantity

/-- Modelled from the spec: per-item discount, `(mrp − unitPrice) × quantity`
where mrp is present and discount > 0.  Presence is the source's JS presence
test, under which a zero mrp counts as absent. -/
def specDiscountPerItem (i : CartItem) : ℚ :=
  if 0 < i.discount ∧ qTruthy i.mrp then (i.mrp.getD 0 - i.unitPrice) * i.quantity else 0

/-- Modelled from the spec: an item "carries exclusive tax" when its tax
parameters are present with `inclusive = false`. -/
def specCarriesExclusiveTax (i : CartItem) : Bool :=
  match i.tax with
  | some t => !t.inclusive
  | none => false

/-- Modelled from the spec (§4.1): totals as sums over the active items, with
the asymmetric grand-total rule and two-decimal half-up rounding. -/
def specTotalsOf (items : List CartItem) : CartTotals :=
  let active := items.filter fun i => i.isActive
  let sub := (active.map fun i => i.unitPrice * (i.quantity : ℚ)).sum
  let disc := (active.map specDiscountPerItem).sum
  let tax := (active.map specTaxPerItem).sum
  let grand := if items.any specCarriesExclusiveTax then sub + tax else sub
  { totalItems := active.length
    totalQuantity := (active.map fun i => i.quantity).sum
    subtotal := round2 sub
    totalDiscount := round2 disc
    taxAmount := round2 tax
    grandTotal := round2 grand }

/-- Schema constraint on a line item's tax (`gstPercent: { min: 0 }`). -/
def itemTaxWF (i : CartItem) : Prop :=
  match i.tax with
  | none => True
  | some t => 0 ≤ t.gstPercent

/-! Catalog: products, variants, and the stock operations of `orderRoute.js`. -/

/-- A product variant (`VariantSchema` inside `Product.js`).  The schema
declares `stock: { min: 0 }`; stock is an integer here so that the update
operations can be studied faithfully — `updateOne` with `$inc` bypasses the
schema validator. -/
structure Variant where
  id : ℕ
  price : ℚ
  mrp : ℚ
  stock : ℤ
  isActive : Bool
deriving Repr, DecidableEq

/-- A product document (the fields the cart/order logic reads). -/
structure Product where
  id : ℕ
  discount : ℚ
  tax : Option Tax
  isActive : Bool
  variants : List Variant
deriving Repr, DecidableEq

/-- `findVariant` helper: `product.variants.find((v) => v._id === variantId)`. -/
def findVariant (p : Product) (variantId : ℕ) : Option Variant :=
  p.variants.find? fun v => v.id == variantId

/-- `Product.findById`. -/
def findProduct (products : List Product) (productId : ℕ) : Option Product :=
  products.find? fun p => p.id == productId

/-- Schema invariant on the catalog: every variant's stock is non-negative
(`stock: { min: 0 }` in `Product.js`). -/
def productsStockNonneg (products : List Product) : Prop :=
  ∀ p ∈ products, ∀ v ∈ p.variants, 0 ≤ v.stock

/-- Positional `variants.$` update: bump the stock of the first variant with
the given id. -/
def incFirstVariant (variantId : ℕ) (delta : ℤ) : List Variant → List Variant
  | [] => []
  | v :: vs =>
    if v.id == variantId then { v with stock := v.stock + delta } :: vs
    else v :: incFirstVariant variantId delta vs

/-- `Product.updateOne({ _id, "variants._id": variantId }, { $inc: { "variants.$.stock": delta } })`:
update the first product matching both the product id and the variant id,
bumping that variant's stock.  Note there is no stock predicate in the filter:
the increment is applied unconditionally. -/
def updateOneIncStock (productId variantId : ℕ) (delta : ℤ) : List Product → List Product
  | [] => []
  | p :: ps =>
    if p.id == productId && p.variants.any (fun v => v.id == variantId) then
      { p with variants := incFirstVariant variantId delta p.variants } :: ps
    else p :: updateOneIncStock productId variantId delta ps

/-- `reduceStock(items)` from `orderRoute.js`: for each item, `$inc` the
variant's stock by `-quantity`.  In the source these `updateOne` calls do NOT
carry the transaction session, so they persist even when the surrounding
transaction aborts. -/
def reduceStock (items : List CartItem) (products : List Product) : List Product :=
  items.foldl (fun ps item => updateOneIncStock item.product item.variantId (-(item.quantity : ℤ)) ps) products

/-- `restoreStock(items)` from `orderRoute.js`: the compensating `$inc` by
`+quantity` (also issued without the session). -/
def restoreStock (items : List CartItem) (products : List Product) : List Product :=
  items.foldl (fun ps item => updateOneIncStock item.product item.variantId (item.quantity : ℤ) ps) products

/-- Read a variant's stock (first matching product, first matching variant). -/
def stockOf (products : List Product) (productId variantId : ℕ) : Option ℤ :=
  match findProduct products productId with
  | none => none
  | some p => (findVariant p variantId).map fun v => v.stock

/-- One stock issue reported by `validateOrderStock`. -/
inductive StockIssue where
  | productNotAvailable (productId : ℕ)
  | variantNotAvailable (productId : ℕ)
  | insufficientStock (productId : ℕ) (required : ℕ) (available : ℤ)
deriving Repr, DecidableEq

/-- `validateOrderStock(items)` from `orderRoute.js`: collect an issue for
every missing/inactive product, missing/inactive variant, or variant with
`stock < quantity`. -/
def validateOrderStock (products : List Product) (items : List CartItem) : List StockIssue :=
  items.foldl
    (fun issues item =>
      match findProduct products item.product with
      | none => issues ++ [.productNotAvailable item.product]
      | some p =>
        if !p.isActive then issues ++ [.productNotAvailable item.product]
        else
          match findVariant p item.variantId with
          | none => issues ++ [.variantNotAvailable item.product]
          | some v =>
            if !v.isActive then issues ++ [.variantNotAvailable item.product]
            else if v.stock < (item.quantity : ℤ) then
              issues ++ [.insufficientStock item.product item.quantity v.stock]
            else issues)
    []

/-! The cart and its route handlers (`cartRoute.js`). -/

/-- A cart document (`CartSchema`), with the denormalized aggregate totals. -/
structure Cart where
  id : ℕ
  user : ℕ
  items : List CartItem
  totalItems : ℕ
  totalQuantity : ℕ
  subtotal : ℚ
  totalDiscount : ℚ
  taxAmount : ℚ
  grandTotal : ℚ
  status : String
deriving Repr, DecidableEq

/-- `Object.assign(cart, totals)` after `calculateCartTotals`. -/
def cartApplyTotals (c : Cart) (t : CartTotals) : Cart :=
  { c with
    totalItems := t.totalItems
    totalQuantity := t.totalQuantity
    subtotal := t.subtotal
    totalDiscount := t.totalDiscount
    taxAmount := t.taxAmount
    grandTotal := t.grandTotal }

/-- The recompute-and-store step every cart mutation ends with:
`Object.assign(cart, calculateCartTotals(cart.items))` before `cart.save()`. -/
def cartFinalize (c : Cart) : Cart := cartApplyTotals c (calculateCartTotals c.items)

/-- `createCartItem(product, variant, quantity)` from `cartRoute.js`. -/
def createCartItem (p : Product) (v : Variant) (quantity : ℕ) : CartItem :=
  { product := p.id
    variantId := v.id
    unitPrice := v.price
    mrp := some v.mrp
    discount := p.discount
    tax := some (p.tax.getD ⟨0, true⟩)
    quantity := quantity
    subtotal := round2 (v.price * quantity)
    isActive := true }

/-- Errors surfaced by the cart routes. -/
inductive CartError where
  | badRequest (msg : String)
  | notFound (msg : String)
  | serverError
deriving Repr, DecidableEq

/-- `item.product === productId && item.variantId === variantId`. -/
def itemMatches (productId variantId : ℕ) (item : CartItem) : Bool :=
  item.product == productId && item.variantId == variantId

/-- Replace the first element satisfying the predicate (models mutating
`cart.items[index]` found via `findIndex`). -/
def replaceFirst (pred : α → Bool) (f : α → α) : List α → List α
  | [] => []
  | x :: xs => if pred x then f x :: xs else x :: replaceFirst pred f xs

/-- Remove the first element satisfying the predicate (models
`cart.items.splice(itemIndex, 1)`). -/
def removeFirst (pred : α → Bool) : List α → List α
  | [] => []
  | x :: xs => if pred x then xs else x :: removeFirst pred xs

/-- The fresh cart created by `POST /api/cart/add` when none exists. -/
def newCart (userId : ℕ) : Cart :=
  { id := 0, user := userId, items := [], totalItems := 0, totalQuantity := 0
    subtotal := 0, totalDiscount := 0, taxAmount := 0, grandTotal := 0, status := "active" }

/-- `POST /api/cart/add` from `cartRoute.js`: validate the product and variant
are active and in stock; merge into an existing (product, variant) line
(re-checking the merged quantity against stock) or append a fresh snapshot;
recompute totals; save.  On an error nothing is written, so the persisted cart
is the input cart. -/
def addToCart (products : List Product) (cart0 : Option Cart) (userId productId variantId : ℕ)
    (quantity : ℕ) : Except CartError Cart :=
  if quantity < 1 then .error (.badRequest "Quantity must be at least 1")
  else
    match findProduct products productId with
    | none => .error (.notFound "Product not found or inactive")
    | some product =>
      if !product.isActive then .error (.notFound "Product not found or inactive")
      else
        match findVariant product variantId with
        | none => .error (.notFound "Variant not found or inactive")
        | some variant =>
          if !variant.isActive then .error (.notFound "Variant not found or inactive")
          else if variant.stock < (quantity : ℤ) then
            .error (.badRequest "Insufficient stock")
          else
            let cart := cart0.getD (newCart userId)
            match cart.items.find? (itemMatches productId variantId) with
            | some existingItem =>
              let newQuantity := existingItem.quantity + quantity
              if variant.stock < (newQuantity : ℤ) then
                .error (.badRequest "Cannot add more: insufficient stock")
              else
                .ok (cartFinalize { cart with
                  items := replaceFirst (itemMatches productId variantId)
                    (fun item => { item with
                      quantity := newQuantity
                      subtotal := round2 (item.unitPrice * newQuantity) })
                    cart.items })
            | none =>
              .ok (cartFinalize { cart with
                items := cart.items ++ [createCartItem product variant quantity] })

/-- The cart persisted after `POST /api/cart/add`: the saved cart on success,
the untouched input cart on any error. -/
def persistedAfterAdd (products : List Product) (cart0 : Option Cart)
    (userId productId variantId quantity : ℕ) : Option Cart :=
  match addToCart products cart0 userId productId variantId quantity with
  | .ok c => some c
  | .error _ => cart0

/-- Result of a cart mutation route: the saved cart, or the cart document
deleted because it became empty. -/
inductive CartWrite where
  | saved (c : Cart)
  | deletedCart
  | untouched
deriving Repr, DecidableEq

/-- `PUT /api/cart/update` from `cartRoute.js`: quantity 0 removes the line;
otherwise the stock is re-checked and the line updated; an emptied cart is
deleted; otherwise totals are recomputed and the cart saved.
A missing product document makes the handler throw (`findVariant` on `null`),
surfacing as a 500. -/
def updateCartQuantity (products : List Product) (cart0 : Option Cart)
    (productId variantId : ℕ) (quantity : ℕ) : Except CartError CartWrite :=
  match cart0 with
  | none => .error (.notFound "Cart not found")
  | some cart =>
    match cart.items.find? (itemMatches productId variantId) with
    | none => .error (.notFound "Item not found in cart")
    | some _ =>
      if quantity == 0 then
        let items := removeFirst (itemMatches productId variantId) cart.items
        if items.isEmpty then .ok .deletedCart
        else .ok (.saved (cartFinalize { cart with items }))
      else
        match findProduct products productId with
        | none => .error .serverError
        | some product =>
          match findVariant product variantId with
          | none => .error (.badRequest "Insufficient stock")
          | some variant =>
            if variant.stock < (quantity : ℤ) then .error (.badRequest "Insufficient stock")
            else
              let items := replaceFirst (itemMatches productId variantId)
                (fun item => { item with
                  quantity := quantity
                  subtotal := round2 (item.unitPrice * quantity) }) cart.items
              if items.isEmpty then .ok .deletedCart
              else .ok (.saved (cartFinalize { cart with items }))

/-- `DELETE /api/cart/remove` from `cartRoute.js`: filter out every matching
line; 404 when nothing matched; delete the cart when emptied; otherwise
recompute totals and save. -/
def removeFromCart (cart0 : Option Cart) (productId variantId : ℕ) : Except CartError CartWrite :=
  match cart0 with
  | none => .error (.notFound "Cart not found")
  | some cart =>
    let items := cart.items.filter fun item => !itemMatches productId variantId item
    if items.length == cart.items.length then .error (.notFound "Item not found in cart")
    else if items.isEmpty then .ok .deletedCart
    else .ok (.saved (cartFinalize { cart with items }))

/-- Per-item step of `POST /api/cart/validate`: drop the item when its product
or variant is gone or inactive; refresh the price snapshot when the live price
moved; keep the item otherwise (a stock shortfall is reported as an issue but
the item is retained). -/
def validateCartItem (products : List Product) (item : CartItem) : Option CartItem :=
  match findProduct products item.product with
  | none => none
  | some product =>
    if !product.isActive then none
    else
      match findVariant product item.variantId with
      | none => none
      | some variant =>
        if !variant.isActive then none
        else if variant.price != item.unitPrice then
          some { item with
            unitPrice := variant.price
            mrp := some variant.mrp
            subtotal := round2 (variant.price * item.quantity) }
        else some item

/-- `POST /api/cart/validate` from `cartRoute.js`: re-check every line against
the live catalog, keep the surviving (possibly re-priced) items, delete the
cart when none survive, otherwise recompute totals and save.  An absent or
empty cart is reported valid and left untouched. -/
def validateCart (products : List Product) (cart0 : Option Cart) : Except CartError CartWrite :=
  match cart0 with
  | none => .ok .untouched
  | some cart =>
    if cart.items.isEmpty then .ok .untouched
    else
      let validItems := cart.items.filterMap (validateCartItem products)
      if validItems.isEmpty then .ok .deletedCart
      else .ok (.saved (cartFinalize { cart with items := validItems }))

/-! Orders and payments (`Orders.js`, the Payment schema, `orderRoute.js`). -/

/-- The allowed payment methods checked by `POST /api/orders`. -/
def paymentMethods : List String := ["cod", "upi", "card", "wallet"]

/-- `OrderSchema.status` enum. -/
def orderStatuses : List String :=
  ["placed", "confirmed", "packed", "out_for_delivery", "delivered", "cancelled", "returned"]

/-- `OrderSchema.payment.status` enum — note it has no "cancelled" value. -/
def orderPaymentStatuses : List String := ["pending", "paid", "failed", "refunded"]

/-- `PaymentSchema.status` enum. -/
def paymentStatuses : List String :=
  ["initiated", "pending", "success", "failed", "cancelled", "refunded", "partial_refund"]

/-- The embedded `payment` sub-document of an order. -/
structure OrderPayment where
  method : String
  status : String
  isCod : Bool
  codCollected : Bool
deriving Repr, DecidableEq

/-- An order document (`OrderSchema`), with timestamps reduced to set/unset
flags. -/
structure OrderDoc where
  id : ℕ
  user : ℕ
  items : List CartItem
  totalItems : ℕ
  totalQuantity : ℕ
  subtotal : ℚ
  totalDiscount : ℚ
  taxAmount : ℚ
  deliveryFee : ℚ
  grandTotal : ℚ
  payment : OrderPayment
  status : String
  orderNumber : String
  cancelReason : Option String
  cancelledAtSet : Bool
  deliveredAtSet : Bool
  notes : Option String
deriving Repr, DecidableEq

/-- Document validation run by `order.save()`: the enum paths and the
"at least one item" validator of `OrderSchema`. -/
def orderValidate (o : OrderDoc) : Bool :=
  orderStatuses.contains o.status
    && orderPaymentStatuses.contains o.payment.status
    && paymentMethods.contains o.payment.method
    && !o.items.isEmpty

/-- `OrderSchema.pre("save")`: a cod order is forced to `isCod = true` and
`payment.status = "pending"`. -/
def orderPreSaveHook (o : OrderDoc) : OrderDoc :=
  if o.payment.method == "cod" then
    { o with payment := { o.payment with isCod := true, status := "pending" } }
  else o

/-- `order.save()`: Mongoose runs document validation before the schema's own
pre-save hooks (validate hooks always precede save hooks), so an enum
violation rejects the save before the hook can rewrite anything. -/
def orderSave (o : OrderDoc) : Except String OrderDoc :=
  if orderValidate o then .ok (orderPreSaveHook o) else .error "ValidationError"

/-- A payment document (the Payment schema, `src/unnamed/part_000`). -/
structure PaymentDoc where
  id : ℕ
  order : ℕ
  user : ℕ
  amount : ℚ
  method : String
  status : String
  isCod : Bool
  codCollected : Bool
deriving Repr, DecidableEq

/-- Document validation run by `payment.save()` (the enum paths). -/
def paymentValidate (p : PaymentDoc) : Bool :=
  paymentStatuses.contains p.status && paymentMethods.contains p.method

/-- `PaymentSchema.pre("save")`: `if (this.method === "cod") { this.isCod = true; this.status = "pending"; }`. -/
def paymentPreSaveHook (p : PaymentDoc) : PaymentDoc :=
  if p.method == "cod" then { p with isCod := true, status := "pending" } else p

/-- `payment.save()`: validation, then the cod pre-save hook. -/
def paymentSave (p : PaymentDoc) : Except String PaymentDoc :=
  if paymentValidate p then .ok (paymentPreSaveHook p) else .error "ValidationError"

/-- `Payment.findOneAndUpdate({order}, {status: "success", codCollected: true, ...})`
as issued when a COD order is marked delivered.  `findOneAndUpdate` bypasses
the pre-save hook (and, by default, validation), so the written fields land
as given. -/
def paymentMarkCodCollected (p : PaymentDoc) : PaymentDoc :=
  { p with status := "success", codCollected := true }

/-- `Payment.findOneAndUpdate({order}, {status: "cancelled"})` from the cancel
route — again hook-free. -/
def paymentMarkCancelled (p : PaymentDoc) : PaymentDoc :=
  { p with status := "cancelled" }

/-! The order-number generator (`generateOrderNumber` in `orderRoute.js`). -/

/-- Fuel-indexed unfolding of the source's recursive retry
(`generateOrderNumber` calls itself whenever the candidate collides with an
existing `orderNumber`).  `candidates i` is the time/random token the i-th
attempt would draw; `none` means the recursion is still running after the
given number of attempts — the source has no attempt cap and no error path. -/
def generateOrderNumberAux (existing : List String) (candidates : ℕ → String) :
    ℕ → ℕ → Option String
  | _, 0 => none
  | i, fuel + 1 =>
    let orderNumber := candidates i
    if existing.contains orderNumber then generateOrderNumberAux existing candidates (i + 1) fuel
    else some orderNumber

/-- The generator, started at attempt 0. -/
def generateOrderNumberFuel (existing : List String) (candidates : ℕ → String) (fuel : ℕ) :
    Option String :=
  generateOrderNumberAux existing candidates 0 fuel

/-- Termination of the retry loop: some finite number of attempts returns. -/
def generateOrderNumberTerminates (existing : List String) (candidates : ℕ → String) : Prop :=
  ∃ fuel, (generateOrderNumberFuel existing candidates fuel).isSome

/-! The database state and the transactional routes of `orderRoute.js`. -/

/-- The collections the order routes touch. -/
structure DB where
  products : List Product
  carts : List Cart
  orders : List OrderDoc
  payments : List PaymentDoc
deriving Repr, DecidableEq

/-- Outcome of a route that may mutate the store: the HTTP-level result and
the state of the store after the request (after commit or abort). -/
structure RouteOutcome (α : Type) where
  response : Except String α
  db : DB

/-- `POST /api/orders` (create order from cart).  The route opens a mongoose
transaction; `order.save`, `payment.save` and `cart.save` carry the session,
but the `reduceStock` updates do NOT — so they apply to the store immediately
and survive an abort.  `commitFails` injects a failure at the final
`cart.save`/`commitTransaction` step (e.g. a write conflict): the session
writes are rolled back, the stock decrement is not.  Presence validation of
`userId`/`addressId` and the address snapshot are outside this model. -/
def placeOrder (db : DB) (userId : ℕ) (paymentMethod : String) (deliveryFee : ℚ)
    (newOrderId newPaymentId : ℕ) (orderNumber : String) (commitFails : Bool) :
    RouteOutcome (OrderDoc × PaymentDoc) :=
  if !paymentMethods.contains paymentMethod then ⟨.error "Invalid payment method", db⟩
  else
    match db.carts.find? (fun c => c.user == userId && c.status == "active") with
    | none => ⟨.error "Cart is empty", db⟩
    | some cart =>
      if cart.items.isEmpty then ⟨.error "Cart is empty", db⟩
      else if !(validateOrderStock db.products cart.items).isEmpty then
        ⟨.error "Stock validation failed", db⟩
      else
        let order : OrderDoc :=
          { id := newOrderId
            user := userId
            items := cart.items
            totalItems := cart.totalItems
            totalQuantity := cart.totalQuantity
            subtotal := cart.subtotal
            totalDiscount := cart.totalDiscount
            taxAmount := cart.taxAmount
            deliveryFee := deliveryFee
            grandTotal := cart.grandTotal + deliveryFee
            payment :=
              { method := paymentMethod
                status := "pending"
                isCod := paymentMethod == "cod"
                codCollected := false }
            status := "placed"
            orderNumber := orderNumber
            cancelReason := none
            cancelledAtSet := false
            deliveredAtSet := false
            notes := none }
        match orderSave order with
        | .error e => ⟨.error e, db⟩
        | .ok order =>
          let payment : PaymentDoc :=
            { id := newPaymentId
              order := order.id
              user := userId
              amount := cart.grandTotal + deliveryFee
              method := paymentMethod
              status := if paymentMethod == "cod" then "pending" else "initiated"
              isCod := paymentMethod == "cod"
              codCollected := false }
          match paymentSave payment with
          | .error e => ⟨.error e, db⟩
          | .ok payment =>
            let products := reduceStock cart.items db.products
            if commitFails then
              ⟨.error "Failed to create order", { db with products }⟩
            else
              ⟨.ok (order, payment),
                { db with
                  products
                  carts := replaceFirst (fun c => c.id == cart.id)
                    (fun c => { c with status := "converted" }) db.carts
                  orders := db.orders ++ [order]
                  payments := db.payments ++ [payment] }⟩

/-- `PUT /api/orders/:id/status`: reject invalid statuses, 404 on a missing
order, refuse any change once the order is delivered/cancelled/returned;
marking a COD order delivered also marks its payment collected (via the
hook-free `findOneAndUpdate`). -/
def updateOrderStatus (db : DB) (orderId : ℕ) (newStatus : String) (notes : Option String) :
    RouteOutcome OrderDoc :=
  if !orderStatuses.contains newStatus then ⟨.error "Invalid status", db⟩
  else
    match db.orders.find? (fun o => o.id == orderId) with
    | none => ⟨.error "Order not found", db⟩
    | some order =>
      if ["delivered", "cancelled", "returned"].contains order.status then
        ⟨.error ("Cannot change status of " ++ order.status ++ " order"), db⟩
      else
        let delivered := newStatus == "delivered"
        let codDelivered := delivered && order.payment.isCod
        let order2 :=
          { order with
            status := newStatus
            deliveredAtSet := order.deliveredAtSet || delivered
            payment :=
              if codDelivered then
                { order.payment with status := "paid", codCollected := true }
              else order.payment
            notes := match notes with | some n => some n | none => order.notes }
        let payments :=
          if codDelivered then
            replaceFirst (fun p => p.order == orderId) paymentMarkCodCollected db.payments
          else db.payments
        ⟨.ok order2,
          { db with
            orders := replaceFirst (fun o => o.id == orderId) (fun _ => order2) db.orders
            payments }⟩

/-- `POST /api/orders/:id/cancel`: 404 on a missing order, 403 on a foreign
order, refusal for delivered/cancelled/returned and for out_for_delivery;
otherwise the route sets `status = "cancelled"`, the cancellation timestamp
and reason, and `payment.status = "cancelled"` on the order, saves it inside
the transaction, cancels the Payment document and calls `restoreStock`.
When `order.save()` is rejected the transaction aborts having made no
non-session write yet, so the store is unchanged. -/
def cancelOrder (db : DB) (orderId : ℕ) (userId : Option ℕ) (reason : Option String) :
    RouteOutcome OrderDoc :=
  match db.orders.find? (fun o => o.id == orderId) with
  | none => ⟨.error "Order not found", db⟩
  | some order =>
    if (match userId with | some u => order.user != u | none => false) then
      ⟨.error "Unauthorized to cancel this order", db⟩
    else if ["delivered", "cancelled", "returned"].contains order.status then
      ⟨.error ("Cannot cancel " ++ order.status ++ " order"), db⟩
    else if order.status == "out_for_delivery" then
      ⟨.error "Cannot cancel order that is out for delivery", db⟩
    else
      let order2 :=
        { order with
          status := "cancelled"
          cancelledAtSet := true
          cancelReason := reason
          payment := { order.payment with status := "cancelled" } }
      match orderSave order2 with
      | .error _ => ⟨.error "Failed to cancel order", db⟩
      | .ok order3 =>
        ⟨.ok order3,
          { db with
            orders := replaceFirst (fun o => o.id == orderId) (fun _ => order3) db.orders
            payments := replaceFirst (fun p => p.order == orderId) paymentMarkCancelled db.payments
            products := restoreStock order3.items db.products }⟩

/-! Addresses (`Address.js`, `addressRoute.js`). -/

/-- An address document (the fields the default-address logic reads). -/
structure AddressDoc where
  id : ℕ
  user : ℕ
  isDefault : Bool
deriving Repr, DecidableEq

/-- `Address.updateMany({ user }, { $set: { isDefault: false } })`. -/
def unsetDefaults (user : ℕ) (s : List AddressDoc) : List AddressDoc :=
  s.map fun a => if a.user == user then { a with isDefault := false } else a

/-- `Address.updateMany({ user, _id: { $ne: id } }, { $set: { isDefault: false } })`. -/
def unsetDefaultsExcept (user : ℕ) (exceptId : ℕ) (s : List AddressDoc) : List AddressDoc :=
  s.map fun a => if a.user == user && a.id != exceptId then { a with isDefault := false } else a

/-- `POST /addresses`: at most 3 addresses per user; a request marked default
unsets the user's other defaults; the first address becomes default
automatically.  A rejected request leaves the store unchanged. -/
def addAddress (s : List AddressDoc) (user : ℕ) (isDefault : Option Bool) (newId : ℕ) :
    List AddressDoc :=
  let count := (s.filter fun a => a.user == user).length
  if 3 ≤ count then s
  else
    let truthy := isDefault == some true
    let s1 := if truthy then unsetDefaults user s else s
    let isFirst := count == 0
    s1 ++ [{ id := newId, user := user, isDefault := truthy || isFirst }]

/-- `PUT /addresses/:id`: when the body sets `isDefault` on a non-default
address, the user's other addresses are unset first; then the address's
`isDefault` is overwritten by the body value when one was sent (also when it
is `false`). -/
def updateAddress (s : List AddressDoc) (addrId : ℕ) (isDefault : Option Bool) :
    List AddressDoc :=
  match s.find? (fun a => a.id == addrId) with
  | none => s
  | some address =>
    let s1 :=
      if isDefault == some true && !address.isDefault then
        unsetDefaultsExcept address.user addrId s
      else s
    replaceFirst (fun a => a.id == addrId)
      (fun a => { a with isDefault := isDefault.getD a.isDefault }) s1

/-- `PUT /addresses/:id/default`: unset every default of the user, then set
this address default. -/
def setDefaultAddress (s : List AddressDoc) (addrId : ℕ) : List AddressDoc :=
  match s.find? (fun a => a.id == addrId) with
  | none => s
  | some address =>
    replaceFirst (fun a => a.id == addrId) (fun a => { a with isDefault := true })
      (unsetDefaults address.user s)

/-- `DELETE /addresses/:id`: remove the address; when it was the default,
promote the first remaining address of the user (`Address.findOne({ user })`). -/
def deleteAddress (s : List AddressDoc) (addrId : ℕ) : List AddressDoc :=
  match s.find? (fun a => a.id == addrId) with
  | none => s
  | some address =>
    let s1 := removeFirst (fun a => a.id == addrId) s
    if address.isDefault then
      replaceFirst (fun a => a.user == address.user) (fun a => { a with isDefault := true }) s1
    else s1

/-- Number of addresses a user has. -/
def userAddrCount (s : List AddressDoc) (user : ℕ) : ℕ :=
  s.countP fun a => a.user == user

/-- Number of default addresses a user has. -/
def defaultCount (s : List AddressDoc) (user : ℕ) : ℕ :=
  s.countP fun a => a.user == user && a.isDefault

/-- The spec's default-address invariant: every user with at least one address
has exactly one default. -/
def uniqueDefaultInv (s : List AddressDoc) : Prop :=
  ∀ u, 0 < userAddrCount s u → defaultCount s u = 1

/-- Unique document ids (Mongo `_id` uniqueness). -/
def addrIdsNodup (s : List AddressDoc) : Prop :=
  (s.map fun a => a.id).Nodup

/-! Fixtures: concrete documents used by scenario theorems and witnesses. -/

/-- The spec §8 scenario item: unitPrice 100, quantity 2, mrp 120, discount 10,
gst 5 percent exclusive. -/
def exclScenarioItem : CartItem :=
  { product := 1, variantId := 11, unitPrice := 100, mrp := some 120, discount := 10
    tax := some ⟨5, false⟩, quantity := 2, subtotal := 200, isActive := true }

/-- The same item with inclusive tax. -/
def inclScenarioItem : CartItem := { exclScenarioItem with tax := some ⟨5, true⟩ }

/-- A variant with stock 5. -/
def exVariant : Variant := { id := 11, price := 100, mrp := 120, stock := 5, isActive := true }

/-- Its product. -/
def exProduct : Product :=
  { id := 1, discount := 10, tax := some ⟨5, false⟩, isActive := true, variants := [exVariant] }

/-- A cart line of two units of that variant. -/
def exItem : CartItem := createCartItem exProduct exVariant 2

/-- User 7's active cart holding that line, with freshly computed totals. -/
def exCart : Cart := cartFinalize { newCart 7 with id := 3, items := [exItem] }

/-- Store state before the checkout attempt of claim C1. -/
def exDB1 : DB := { products := [exProduct], carts := [exCart], orders := [], payments := [] }

/-- A variant holding the last unit in stock. -/
def exVariant2 : Variant := { id := 21, price := 10, mrp := 10, stock := 1, isActive := true }

/-- Its product. -/
def exProduct2 : Product :=
  { id := 2, discount := 0, tax := none, isActive := true, variants := [exVariant2] }

/-- An order line for one unit of that variant. -/
def exItem2 : CartItem := createCartItem exProduct2 exVariant2 1

/-- A freshly placed UPI order. -/
def exOrder1 : OrderDoc :=
  { id := 100, user := 7, items := [exItem], totalItems := 1, totalQuantity := 2
    subtotal := 200, totalDiscount := 40, taxAmount := 10, deliveryFee := 0, grandTotal := 210
    payment := { method := "upi", status := "pending", isCod := false, codCollected := false }
    status := "placed", orderNumber := "ORDX", cancelReason := none
    cancelledAtSet := false, deliveredAtSet := false, notes := none }

/-- Store state holding that placed order. -/
def exDB2 : DB := { products := [exProduct], carts := [], orders := [exOrder1], payments := [] }

/-- The same order already delivered. -/
def exOrderDelivered : OrderDoc := { exOrder1 with status := "delivered" }

/-- Store state holding the delivered order. -/
def exDB3 : DB := { exDB2 with orders := [exOrderDelivered] }

/-- A COD payment document that somehow carries status "success". -/
def exCodPayment : PaymentDoc :=
  { id := 1, order := 100, user := 7, amount := 210, method := "cod", status := "success"
    isCod := false, codCollected := false }

/-! Claim C3: the totals calculator refines the spec formulas. -/

theorem taxContrib_eq_spec (i : CartItem) (h : itemTaxWF i) : taxContrib i = specTaxPerItem i := by
  unfold taxContrib specTaxPerItem
  unfold itemTaxWF at h
  cases htax : i.tax with
  | none => rfl
  | some t =>
    rw [htax] at h
    by_cases hpos : 0 < t.gstPercent
    · simp [hpos]
    · have hz : t.gstPercent = 0 := le_antisymm (not_lt.mp hpos) h
      cases hincl : t.inclusive <;> simp [hpos, hz]

theorem cartTotalsStep_active (a b : ℕ) (c d e : ℚ) (i : CartItem) (hi : i.isActive = true) :
    cartTotalsStep ⟨a, b, c, d, e⟩ i =
      ⟨a + 1, b + i.quantity, c + i.unitPrice * i.quantity,
       d + discountContrib i, e + taxContrib i⟩ := by
  simp [cartTotalsStep, hi]

theorem cartTotalsStep_inactive (acc : TotalsAcc) (i : CartItem) (hi : i.isActive = false) :
    cartTotalsStep acc i = acc := by
  simp [cartTotalsStep, hi]

theorem foldl_cartTotalsStep (items : List CartItem) (a b : ℕ) (c d e : ℚ) :
    items.foldl cartTotalsStep ⟨a, b, c, d, e⟩ =
      { totalItems := a + (items.filter fun i => i.isActive).length
        totalQuantity := b + ((items.filter fun i => i.isActive).map fun i => i.quantity).sum
        subtotal := c + ((items.filter fun i => i.isActive).map fun i => i.unitPrice * (i.quantity : ℚ)).sum
        totalDiscount := d + ((items.filter fun i => i.isActive).map discountContrib).sum
        taxAmount := e + ((items.filter fun i => i.isActive).map taxContrib).sum } := by
  induction items generalizing a b c d e with
  | nil => simp
  | cons i is ih =>
    rw [List.foldl_cons]
    cases hi : i.isActive with
    | true =>
      rw [cartTotalsStep_active a b c d e i hi, ih]
      simp only [List.filter_cons, hi, if_true, List.length_cons, List.map_cons, List.sum_cons,
        TotalsAcc.mk.injEq]
      refine ⟨by omega, by omega, by ring, by ring, by ring⟩
    | false =>
      rw [cartTotalsStep_inactive _ i hi, ih]
      simp [List.filter_cons, hi]

theorem calculateCartTotals_eq_spec (items : List CartItem) (h : ∀ i ∈ items, itemTaxWF i) :
    calculateCartTotals items = specTotalsOf items := by
  have htax : (items.filter fun i => i.isActive).map taxContrib
      = (items.filter fun i => i.isActive).map specTaxPerItem :=
    List.map_congr_left fun i hi => taxContrib_eq_spec i (h i (List.mem_of_mem_filter hi))
  unfold calculateCartTotals specTotalsOf
  rw [show (⟨0, 0, 0, 0, 0⟩ : TotalsAcc) = ⟨0, 0, 0, 0, 0⟩ from rfl, foldl_cartTotalsStep]
  simp only [zero_add, htax]
  rfl

/-- C3: for every list of line items (with the schema's non-negative GST
rates), `calculateCartTotals` returns exactly the spec §4.1 aggregates —
subtotal, totalDiscount, per-item inclusive/exclusive tax, and the asymmetric
grand-total rule, all rounded half-up to two decimals; in particular the
scenario item {unitPrice 100, quantity 2, mrp 120, discount 10, gstPercent 5}
yields (200, 40, 10, 210) with exclusive tax and taxAmount 9.52 with grand
total 200 when inclusive. -/
theorem claim_C3_totals_calculator :
    (∀ items : List CartItem, (∀ i ∈ items, itemTaxWF i) →
      calculateCartTotals items = specTotalsOf items)
    ∧ calculateCartTotals [exclScenarioItem] =
        { totalItems := 1, totalQuantity := 2, subtotal := 200, totalDiscount := 40
          taxAmount := 10, grandTotal := 210 }
    ∧ calculateCartTotals [inclScenarioItem] =
        { totalItems := 1, totalQuantity := 2, subtotal := 200, totalDiscount := 40
          taxAmount := 952/100, grandTotal := 200 } :=
  ⟨calculateCartTotals_eq_spec,
   by
    norm_num [calculateCartTotals, cartTotalsStep, exclScenarioItem, discountContrib,
      taxContrib, hasNonInclusiveTax, qTruthy, round2, jsRound, CartTotals.mk.injEq],
   by
    norm_num [calculateCartTotals, cartTotalsStep, inclScenarioItem, exclScenarioItem,
      discountContrib, taxContrib, hasNonInclusiveTax, qTruthy, round2, jsRound,
      CartTotals.mk.injEq]⟩

/-- Witness for C3: the refinement applied to the concrete scenario items. -/
theorem claim_C3_totals_calculator_witness :
    calculateCartTotals [exclScenarioItem, inclScenarioItem]
      = specTotalsOf [exclScenarioItem, inclScenarioItem] :=
  claim_C3_totals_calculator.1 [exclScenarioItem, inclScenarioItem] (by
    intro i hi
    simp only [List.mem_cons, List.not_mem_nil, or_false] at hi
    rcases hi with rfl | rfl <;>
      norm_num [itemTaxWF, exclScenarioItem, inclScenarioItem])

/-! Claim C4: every cart mutation persists freshly recomputed totals. -/

/-- The stored aggregates of a cart equal the pure recomputation over its
current line items. -/
def cartTotalsFresh (c : Cart) : Prop :=
  c.totalItems = (calculateCartTotals c.items).totalItems
    ∧ c.totalQuantity = (calculateCartTotals c.items).totalQuantity
    ∧ c.subtotal = (calculateCartTotals c.items).subtotal
    ∧ c.totalDiscount = (calculateCartTotals c.items).totalDiscount
    ∧ c.taxAmount = (calculateCartTotals c.items).taxAmount
    ∧ c.grandTotal = (calculateCartTotals c.items).grandTotal

theorem cartFinalize_fresh (c : Cart) : cartTotalsFresh (cartFinalize c) := by
  simp [cartTotalsFresh, cartFinalize, cartApplyTotals]

/-- C4: after every cart mutation that saves a cart — add, update quantity,
remove, validate — the persisted aggregate fields equal the recomputation of
`calculateCartTotals` over the cart's current line items. -/
theorem claim_C4_totals_never_stale :
    (∀ products cart0 userId productId variantId quantity c,
        addToCart products cart0 userId productId variantId quantity = .ok c →
        cartTotalsFresh c)
    ∧ (∀ products cart0 productId variantId quantity c,
        updateCartQuantity products cart0 productId variantId quantity = .ok (.saved c) →
        cartTotalsFresh c)
    ∧ (∀ cart0 productId variantId c,
        removeFromCart cart0 productId variantId = .ok (.saved c) → cartTotalsFresh c)
    ∧ (∀ products cart0 c,
        validateCart products cart0 = .ok (.saved c) → cartTotalsFresh c) := by
  refine ⟨?_, ?_, ?_, ?_⟩
  · intro products cart0 userId productId variantId quantity c h
    simp only [addToCart] at h
    repeat' split at h
    all_goals try (simp at h)
    all_goals (subst h; exact cartFinalize_fresh _)
  · intro products cart0 productId variantId quantity c h
    simp only [updateCartQuantity] at h
    repeat' split at h
    all_goals try (simp at h)
    all_goals (subst h; exact cartFinalize_fresh _)
  · intro cart0 productId variantId c h
    simp only [removeFromCart] at h
    repeat' split at h
    all_goals try (simp at h)
    all_goals (subst h; exact cartFinalize_fresh _)
  · intro products cart0 c h
    simp only [validateCart] at h
    repeat' split at h
    all_goals try (simp at h)
    all_goals (subst h; exact cartFinalize_fresh _)

/-- A second cart line, for a different (product, variant) pair. -/
def exItemB : CartItem := createCartItem exProduct2 exVariant2 1

/-- A two-line cart. -/
def exCart2 : Cart := cartFinalize { newCart 7 with id := 4, items := [exItem, exItemB] }

/-- Saved result of the witness add. -/
def cAddW : Cart := cartFinalize { newCart 7 with items := [createCartItem exProduct exVariant 1] }

/-- Saved result of the witness quantity update. -/
def cUpdW : Cart :=
  cartFinalize { exCart with
    items := replaceFirst (itemMatches 1 11)
      (fun item => { item with quantity := 1, subtotal := round2 (item.unitPrice * (1 : ℕ)) })
      exCart.items }

/-- Saved result of the witness removal. -/
def cRemW : Cart := cartFinalize { exCart2 with items := [exItemB] }

/-- Saved result of the witness validation. -/
def cValW : Cart := cartFinalize { exCart with items := [exItem] }

/-- Witness for C4: all four mutations applied to concrete carts. -/
theorem claim_C4_totals_never_stale_witness :
    cartTotalsFresh cAddW ∧ cartTotalsFresh cUpdW ∧ cartTotalsFresh cRemW
      ∧ cartTotalsFresh cValW :=
  ⟨claim_C4_totals_never_stale.1 [exProduct] none 7 1 11 1 cAddW rfl,
   claim_C4_totals_never_stale.2.1 [exProduct] (some exCart) 1 11 1 cUpdW rfl,
   claim_C4_totals_never_stale.2.2.1 (some exCart2) 1 11 cRemW rfl,
   claim_C4_totals_never_stale.2.2.2 [exProduct] (some exCart) cValW rfl⟩

/-! Claim C6: terminal orders are immutable. -/

/-- C6: once an order's status is delivered, cancelled or returned, every
further status-update call and every cancel call fails and leaves the store
unchanged. -/
theorem claim_C6_terminal_immutable (db : DB) (orderId : ℕ) (order : OrderDoc)
    (hfind : db.orders.find? (fun o => o.id == orderId) = some order)
    (hterm : ["delivered", "cancelled", "returned"].contains order.status = true) :
    (∀ newStatus notes,
        (updateOrderStatus db orderId newStatus notes).response.isOk = false
        ∧ (updateOrderStatus db orderId newStatus notes).db = db)
    ∧ (∀ userId reason,
        (cancelOrder db orderId userId reason).response.isOk = false
        ∧ (cancelOrder db orderId userId reason).db = db) := by
  constructor
  · intro newStatus notes
    unfold updateOrderStatus
    by_cases hvalid : orderStatuses.contains newStatus = true
    · simp only [hvalid, Bool.not_true, hfind]
      rw [if_neg (by simp), if_pos hterm]
      exact ⟨rfl, rfl⟩
    · rw [Bool.not_eq_true] at hvalid
      simp only [hvalid, Bool.not_false]
      rw [if_pos trivial]
      exact ⟨rfl, rfl⟩
  · intro userId reason
    unfold cancelOrder
    simp only [hfind]
    by_cases hauth : (match userId with | some u => order.user != u | none => false) = true
    · rw [if_pos hauth]
      exact ⟨rfl, rfl⟩
    · rw [if_neg hauth, if_pos hterm]
      exact ⟨rfl, rfl⟩

/-- Witness for C6: a delivered order rejects a status update and a cancel. -/
theorem claim_C6_terminal_immutable_witness :
    ((updateOrderStatus exDB3 100 "confirmed" none).response.isOk = false
      ∧ (updateOrderStatus exDB3 100 "confirmed" none).db = exDB3)
    ∧ ((cancelOrder exDB3 100 (some 7) none).response.isOk = false
      ∧ (cancelOrder exDB3 100 (some 7) none).db = exDB3) :=
  ⟨(claim_C6_terminal_immutable exDB3 100 exOrderDelivered rfl rfl).1 "confirmed" none,
   (claim_C6_terminal_immutable exDB3 100 exOrderDelivered rfl rfl).2 (some 7) none⟩

/-! Claim C10: the COD pre-save hook on payments. -/

/-- C10: every successful `save` of a payment whose method is cod yields a
document with `isCod = true` and `status = "pending"` whatever the prior
status was, while the hook-free `findOneAndUpdate` used on delivery records
`status = "success"` with `codCollected = true`. -/
theorem claim_C10_cod_payment_hook (p : PaymentDoc) (h : p.method = "cod") :
    (∀ q, paymentSave p = .ok q → q.isCod = true ∧ q.status = "pending")
    ∧ (paymentMarkCodCollected p).status = "success"
    ∧ (paymentMarkCodCollected p).codCollected = true := by
  refine ⟨?_, rfl, rfl⟩
  intro q hq
  unfold paymentSave at hq
  split at hq
  · injection hq with hq
    subst hq
    unfold paymentPreSaveHook
    simp [h]
  · cases hq

/-- The document the COD hook produces from the fixture payment. -/
def exCodPaymentSaved : PaymentDoc := { exCodPayment with isCod := true, status := "pending" }

/-- Witness for C10: saving a cod payment recorded as "success" forces it back
to pending, while `findOneAndUpdate` persists "success". -/
theorem claim_C10_cod_payment_hook_witness :
    (exCodPaymentSaved.isCod = true ∧ exCodPaymentSaved.status = "pending")
    ∧ (paymentMarkCodCollected exCodPayment).status = "success" :=
  ⟨(claim_C10_cod_payment_hook exCodPayment rfl).1 exCodPaymentSaved rfl,
   (claim_C10_cod_payment_hook exCodPayment rfl).2.1⟩

/-! Claim C1: the checkout transaction does not cover the stock decrement. -/

/-- C1: a checkout attempt over a valid one-line cart (quantity 2, stock 5)
whose final cart-save/commit step fails is rolled back for the order, payment
and cart writes — but the `reduceStock` update, issued without the session,
persists: stock drops from 5 to 3 although the attempt failed.  The same
attempt succeeds when the commit does not fail, showing the failure injection
is the only difference. -/
theorem claim_C1_checkout_not_atomic :
    (placeOrder exDB1 7 "upi" 0 100 200 "ORDX" true).response.isOk = false
    ∧ (placeOrder exDB1 7 "upi" 0 100 200 "ORDX" true).db.orders = exDB1.orders
    ∧ (placeOrder exDB1 7 "upi" 0 100 200 "ORDX" true).db.payments = exDB1.payments
    ∧ (placeOrder exDB1 7 "upi" 0 100 200 "ORDX" true).db.carts = exDB1.carts
    ∧ stockOf exDB1.products 1 11 = some 5
    ∧ stockOf (placeOrder exDB1 7 "upi" 0 100 200 "ORDX" true).db.products 1 11 = some 3
    ∧ (placeOrder exDB1 7 "upi" 0 100 200 "ORDX" false).response.isOk = true :=
  ⟨rfl, rfl, rfl, rfl, rfl, rfl, rfl⟩

/-! Claim C2: the stock decrement carries no insufficient-stock guard. -/

/-- C2: two interleaved checkouts of one unit against a variant holding the
last unit both pass `validateOrderStock` against the initial state (no
insufficient-stock error is raised for either), and the two unguarded
`reduceStock` updates then persist stock −1, violating the schema's
`stock: min 0` invariant. -/
theorem claim_C2_negative_stock_persisted :
    validateOrderStock [exProduct2] [exItem2] = []
    ∧ stockOf [exProduct2] 2 21 = some 1
    ∧ stockOf (reduceStock [exItem2] [exProduct2]) 2 21 = some 0
    ∧ stockOf (reduceStock [exItem2] (reduceStock [exItem2] [exProduct2])) 2 21 = some (-1)
    ∧ ¬ productsStockNonneg (reduceStock [exItem2] (reduceStock [exItem2] [exProduct2])) :=
  ⟨rfl, rfl, rfl, rfl, by simp only [productsStockNonneg]; decide⟩

/-! Claim C5: cancellation is rejected by the order schema itself. -/

/-- C5: the cancel route writes `payment.status = "cancelled"` onto the order,
but "cancelled" is not a value of `OrderSchema.payment.status`
(["pending", "paid", "failed", "refunded"]), so the `order.save()` validation
rejects the write, the transaction aborts, and cancelling a freshly placed
UPI order fails with the store unchanged — no cancellation, no payment
update, no stock restore. -/
theorem claim_C5_cancel_rejected_by_schema :
    orderPaymentStatuses.contains "cancelled" = false
    ∧ orderValidate { exOrder1 with
        status := "cancelled", cancelledAtSet := true, cancelReason := some "changed my mind"
        payment := { exOrder1.payment with status := "cancelled" } } = false
    ∧ exOrder1.status = "placed"
    ∧ (cancelOrder exDB2 100 (some 7) (some "changed my mind")).response.isOk = false
    ∧ (cancelOrder exDB2 100 (some 7) (some "changed my mind")).db = exDB2 :=
  ⟨rfl, rfl, rfl, rfl, rfl⟩

/-! Claim C7: the order-number retry loop has no attempt cap. -/

theorem generateOrderNumberAux_all_collide (existing : List String) (candidates : ℕ → String)
    (hall : ∀ i, existing.contains (candidates i) = true) :
    ∀ fuel i, generateOrderNumberAux existing candidates i fuel = none := by
  intro fuel
  induction fuel with
  | zero => intro i; rfl
  | succ n ih =>
    intro i
    simp only [generateOrderNumberAux, hall i, if_true]
    exact ih (i + 1)

/-- C7 counterexample: when every candidate the generator draws already
exists, the recursion never returns — there is no attempt cap and no Conflict
error, so the claimed bounded termination is false. -/
theorem claim_C7_bounded_retry_counterexample :
    ¬ generateOrderNumberTerminates ["ORD4242424242"] (fun _ => "ORD4242424242") := by
  rintro ⟨fuel, hsome⟩
  rw [generateOrderNumberFuel,
    generateOrderNumberAux_all_collide ["ORD4242424242"] (fun _ => "ORD4242424242")
      (fun _ => rfl) fuel 0] at hsome
  simp at hsome

/-- C7 (amended): the generator regenerates on every uniqueness collision and
only ever returns a fresh number, but the retry is uncapped: there is no
Conflict error, and in a state where every candidate collides it never
returns at any attempt depth. -/
theorem claim_C7_retry_uncapped :
    (∀ existing candidates i fuel s,
        generateOrderNumberAux existing candidates i fuel = some s →
        existing.contains s = false)
    ∧ (∀ existing candidates i fuel, existing.contains (candidates i) = true →
        generateOrderNumberAux existing candidates i (fuel + 1)
          = generateOrderNumberAux existing candidates (i + 1) fuel)
    ∧ (∀ existing candidates i fuel, existing.contains (candidates i) = false →
        generateOrderNumberAux existing candidates i (fuel + 1) = some (candidates i))
    ∧ (∀ existing candidates, (∀ i, existing.contains (candidates i) = true) →
        ∀ fuel, generateOrderNumberFuel existing candidates fuel = none) := by
  refine ⟨?_, ?_, ?_, ?_⟩
  · intro existing candidates i fuel
    induction fuel generalizing i with
    | zero => intro s h; cases h
    | succ n ih =>
      intro s h
      simp only [generateOrderNumberAux] at h
      split at h
      · exact ih (i + 1) s h
      · injection h with h
        subst h
        rename_i hc
        rw [Bool.not_eq_true] at hc
        exact hc
  · intro existing candidates i fuel hc
    simp only [generateOrderNumberAux, hc, if_true]
  · intro existing candidates i fuel hc
    simp only [generateOrderNumberAux, hc, Bool.false_eq_true, if_false]
  · intro existing candidates hall fuel
    exact generateOrderNumberAux_all_collide existing candidates hall fuel 0

/-- Witness for C7 (amended): concrete runs — a fresh candidate is returned
and is indeed unused; a collision advances to the next attempt; an
all-colliding state returns nothing after five attempts. -/
theorem claim_C7_retry_uncapped_witness :
    (["ORDA"] : List String).contains "ORDB" = false
    ∧ generateOrderNumberAux ["ORDA"] (fun i => if i == 0 then "ORDA" else "ORDB") 0 2
        = generateOrderNumberAux ["ORDA"] (fun i => if i == 0 then "ORDA" else "ORDB") 1 1
    ∧ generateOrderNumberAux ["ORDA"] (fun _ => "ORDB") 0 1 = some "ORDB"
    ∧ generateOrderNumberFuel ["ORDA"] (fun _ => "ORDA") 5 = none :=
  ⟨claim_C7_retry_uncapped.1 ["ORDA"] (fun _ => "ORDB") 0 1 "ORDB" rfl,
   claim_C7_retry_uncapped.2.1 ["ORDA"] (fun i => if i == 0 then "ORDA" else "ORDB") 0 1 rfl,
   claim_C7_retry_uncapped.2.2.1 ["ORDA"] (fun _ => "ORDB") 0 0 rfl,
   claim_C7_retry_uncapped.2.2.2 ["ORDA"] (fun _ => "ORDA") (fun _ => rfl) 5⟩

/-! Claim C8: add-to-cart validation, duplicate merging, stock rejection. -/

theorem replaceFirst_length (pred : α → Bool) (f : α → α) (l : List α) :
    (replaceFirst pred f l).length = l.length := by
  induction l with
  | nil => rfl
  | cons x xs ih =>
    unfold replaceFirst
    split <;> simp [ih]

theorem find?_replaceFirst (pred : α → Bool) (f : α → α) (l : List α) (x : α)
    (hfind : l.find? pred = some x) (hpf : pred (f x) = true) :
    (replaceFirst pred f l).find? pred = some (f x) := by
  induction l with
  | nil => cases hfind
  | cons a as ih =>
    unfold replaceFirst
    by_cases ha : pred a = true
    · rw [List.find?_cons_of_pos as ha] at hfind
      injection hfind with hax
      subst hax
      rw [if_pos ha]
      exact List.find?_cons_of_pos _ hpf
    · rw [List.find?_cons_of_neg as (by simpa using ha)] at hfind
      rw [if_neg ha, List.find?_cons_of_neg _ (by simpa using ha)]
      exact ih hfind

/-- C8: `POST /cart/add` rejects an inactive product, an inactive variant, a
request beyond stock, and a merged quantity beyond stock — leaving the
persisted cart untouched in each case — and when the (product, variant) pair
is already in the cart a successful add keeps the number of lines unchanged
and raises that line's quantity by the requested amount instead of appending
a duplicate. -/
theorem claim_C8_addItem (products : List Product) (cart : Cart)
    (userId productId variantId quantity : ℕ) (product : Product) (variant : Variant)
    (hq : 1 ≤ quantity)
    (hp : findProduct products productId = some product) :
    (product.isActive = false →
      addToCart products (some cart) userId productId variantId quantity
          = .error (.notFound "Product not found or inactive")
      ∧ persistedAfterAdd products (some cart) userId productId variantId quantity = some cart)
    ∧ (product.isActive = true → findVariant product variantId = some variant →
       variant.isActive = false →
      addToCart products (some cart) userId productId variantId quantity
          = .error (.notFound "Variant not found or inactive")
      ∧ persistedAfterAdd products (some cart) userId productId variantId quantity = some cart)
    ∧ (product.isActive = true → findVariant product variantId = some variant →
       variant.isActive = true → variant.stock < (quantity : ℤ) →
      addToCart products (some cart) userId productId variantId quantity
          = .error (.badRequest "Insufficient stock")
      ∧ persistedAfterAdd products (some cart) userId productId variantId quantity = some cart)
    ∧ (product.isActive = true → findVariant product variantId = some variant →
       variant.isActive = true → ¬variant.stock < (quantity : ℤ) →
       ∀ existingItem, cart.items.find? (itemMatches productId variantId) = some existingItem →
        (variant.stock < ((existingItem.quantity + quantity : ℕ) : ℤ) →
          addToCart products (some cart) userId productId variantId quantity
              = .error (.badRequest "Cannot add more: insufficient stock")
          ∧ persistedAfterAdd products (some cart) userId productId variantId quantity
              = some cart)
        ∧ (¬variant.stock < ((existingItem.quantity + quantity : ℕ) : ℤ) →
           ∀ c, addToCart products (some cart) userId productId variantId quantity = .ok c →
            c.items.length = cart.items.length
            ∧ (c.items.find? (itemMatches productId variantId)).map (fun it => it.quantity)
                = some (existingItem.quantity + quantity))) := by
  have hq1 : (quantity < 1) = False := eq_false (by omega)
  refine ⟨?_, ?_, ?_, ?_⟩
  · intro hact
    have h1 : addToCart products (some cart) userId productId variantId quantity
        = .error (.notFound "Product not found or inactive") := by
      unfold addToCart
      simp only [hq1, if_false, hp, hact, Bool.not_false, if_true]
    exact ⟨h1, by simp only [persistedAfterAdd, h1]⟩
  · intro hact hv hvact
    have h1 : addToCart products (some cart) userId productId variantId quantity
        = .error (.notFound "Variant not found or inactive") := by
      unfold addToCart
      simp only [hq1, if_false, hp, hact, hv, hvact, Bool.not_true, Bool.not_false,
        Bool.false_eq_true, if_true]
    exact ⟨h1, by simp only [persistedAfterAdd, h1]⟩
  · intro hact hv hvact hstock
    have h1 : addToCart products (some cart) userId productId variantId quantity
        = .error (.badRequest "Insufficient stock") := by
      unfold addToCart
      simp only [hq1, if_false, hp, hact, hv, hvact, Bool.not_true, Bool.false_eq_true,
        if_pos hstock]
    exact ⟨h1, by simp only [persistedAfterAdd, h1]⟩
  · intro hact hv hvact hstock existingItem hfind
    constructor
    · intro hover
      have h1 : addToCart products (some cart) userId productId variantId quantity
          = .error (.badRequest "Cannot add more: insufficient stock") := by
        unfold addToCart
        simp only [hq1, if_false, hp, hact, hv, hvact, Bool.not_true, Bool.false_eq_true,
          if_neg hstock, Option.getD_some, hfind]
        rw [if_pos (by exact_mod_cast hover)]
      exact ⟨h1, by simp only [persistedAfterAdd, h1]⟩
    · intro hfit c hok
      have h1 : addToCart products (some cart) userId productId variantId quantity
          = .ok (cartFinalize { cart with
              items := replaceFirst (itemMatches productId variantId)
                (fun item => { item with
                  quantity := existingItem.quantity + quantity
                  subtotal := round2 (item.unitPrice * ((existingItem.quantity + quantity : ℕ) : ℚ)) })
                cart.items }) := by
        unfold addToCart
        simp only [hq1, if_false, hp, hact, hv, hvact, Bool.not_true, Bool.false_eq_true,
          if_neg hstock, Option.getD_some, hfind]
        rw [if_neg (by exact_mod_cast hfit)]
      rw [h1] at hok
      injection hok with hok
      subst hok
      refine ⟨replaceFirst_length _ _ _, ?_⟩
      rw [show (cartFinalize { cart with
          items := replaceFirst (itemMatches productId variantId)
            (fun item => { item with
              quantity := existingItem.quantity + quantity
              subtotal := round2 (item.unitPrice * ((existingItem.quantity + quantity : ℕ) : ℚ)) })
            cart.items }).items
        = replaceFirst (itemMatches productId variantId)
            (fun item => { item with
              quantity := existingItem.quantity + quantity
              subtotal := round2 (item.unitPrice * ((existingItem.quantity + quantity : ℕ) : ℚ)) })
            cart.items from rfl]
      rw [find?_replaceFirst _ _ _ _ hfind (by
        have := List.find?_some hfind
        simpa [itemMatches] using this)]
      rfl

/-- An inactive clone of the fixture product. -/
def exProductInactive : Product := { exProduct with isActive := false }

/-- The fixture product with its only variant inactive. -/
def exProductVI : Product := { exProduct with variants := [{ exVariant with isActive := false }] }

/-- The cart produced by the witness merge (adding 2 more units on top of the
2 already in the cart). -/
def cMergeW : Cart :=
  (addToCart [exProduct] (some exCart) 7 1 11 2).toOption.getD (newCart 7)

/-- Witness for C8: concrete rejections (inactive product, inactive variant,
stock 5 against requested 6, merged 2+4 against stock 5) each leave the cart
untouched, and a concrete merge (2+2 against stock 5) keeps one line with
quantity 4. -/
theorem claim_C8_addItem_witness :
    (addToCart [exProductInactive] (some exCart) 7 1 11 1
        = .error (.notFound "Product not found or inactive")
      ∧ persistedAfterAdd [exProductInactive] (some exCart) 7 1 11 1 = some exCart)
    ∧ (addToCart [exProductVI] (some exCart) 7 1 11 1
        = .error (.notFound "Variant not found or inactive")
      ∧ persistedAfterAdd [exProductVI] (some exCart) 7 1 11 1 = some exCart)
    ∧ (addToCart [exProduct] (some exCart) 7 1 11 6 = .error (.badRequest "Insufficient stock")
      ∧ persistedAfterAdd [exProduct] (some exCart) 7 1 11 6 = some exCart)
    ∧ (addToCart [exProduct] (some exCart) 7 1 11 4
        = .error (.badRequest "Cannot add more: insufficient stock")
      ∧ persistedAfterAdd [exProduct] (some exCart) 7 1 11 4 = some exCart)
    ∧ (cMergeW.items.length = exCart.items.length
      ∧ (cMergeW.items.find? (itemMatches 1 11)).map (fun it => it.quantity) = some 4) :=
  ⟨(claim_C8_addItem [exProductInactive] exCart 7 1 11 1 exProductInactive exVariant
      (by omega) rfl).1 rfl,
   (claim_C8_addItem [exProductVI] exCart 7 1 11 1 exProductVI
      { exVariant with isActive := false } (by omega) rfl).2.1 rfl rfl rfl,
   (claim_C8_addItem [exProduct] exCart 7 1 11 6 exProduct exVariant
      (by omega) rfl).2.2.1 rfl rfl rfl (by decide),
   ((claim_C8_addItem [exProduct] exCart 7 1 11 4 exProduct exVariant
      (by omega) rfl).2.2.2 rfl rfl rfl (by decide) exItem rfl).1 (by decide),
   ((claim_C8_addItem [exProduct] exCart 7 1 11 2 exProduct exVariant
      (by omega) rfl).2.2.2 rfl rfl rfl (by decide) exItem rfl).2 (by decide) cMergeW rfl⟩

/-! Claim C9: counting lemmas for the default-address invariant. -/

theorem countP_removeFirst (p pr : α → Bool) (l : List α) (x : α) (h : l.find? pr = some x) :
    l.countP p = (removeFirst pr l).countP p + (if p x then 1 else 0) := by
  induction l with
  | nil => cases h
  | cons a as ih =>
    unfold removeFirst
    by_cases ha : pr a = true
    · rw [List.find?_cons_of_pos as ha] at h
      injection h with h
      subst h
      rw [if_pos ha, List.countP_cons]
    · rw [List.find?_cons_of_neg as (by simpa using ha)] at h
      rw [if_neg ha, List.countP_cons, List.countP_cons, ih h]
      omega

theorem countP_replaceFirst (p pr : α → Bool) (f : α → α) (l : List α) (x : α)
    (h : l.find? pr = some x) :
    (replaceFirst pr f l).countP p + (if p x then 1 else 0)
      = l.countP p + (if p (f x) then 1 else 0) := by
  induction l with
  | nil => cases h
  | cons a as ih =>
    unfold replaceFirst
    by_cases ha : pr a = true
    · rw [List.find?_cons_of_pos as ha] at h
      injection h with h
      subst h
      rw [if_pos ha, List.countP_cons, List.countP_cons]
      omega
    · rw [List.find?_cons_of_neg as (by simpa using ha)] at h
      rw [if_neg ha, List.countP_cons, List.countP_cons]
      have := ih h
      omega

theorem replaceFirst_of_find?_none (pr : α → Bool) (f : α → α) (l : List α)
    (h : l.find? pr = none) : replaceFirst pr f l = l := by
  induction l with
  | nil => rfl
  | cons a as ih =>
    rw [List.find?_eq_none] at h
    unfold replaceFirst
    rw [if_neg (by simpa using h a (List.mem_cons_self a as))]
    rw [ih (List.find?_eq_none.mpr fun b hb => h b (List.mem_cons_of_mem a hb))]

theorem replaceFirst_of_fix (pr : α → Bool) (f : α → α) (l : List α) (x : α)
    (h : l.find? pr = some x) (hfx : f x = x) : replaceFirst pr f l = l := by
  induction l with
  | nil => cases h
  | cons a as ih =>
    unfold replaceFirst
    by_cases ha : pr a = true
    · rw [List.find?_cons_of_pos as ha] at h
      injection h with h
      subst h
      rw [if_pos ha, hfx]
    · rw [List.find?_cons_of_neg as (by simpa using ha)] at h
      rw [if_neg ha, ih h]

theorem userAddrCount_map_user_preserved (f : AddressDoc → AddressDoc)
    (hf : ∀ a, (f a).user = a.user) (s : List AddressDoc) (u : ℕ) :
    userAddrCount (s.map f) u = userAddrCount s u := by
  unfold userAddrCount
  rw [List.countP_map]
  exact List.countP_congr fun a _ => by simp [Function.comp, hf a]

theorem find?_id_map (f : AddressDoc → AddressDoc) (hid : ∀ a, (f a).id = a.id)
    (s : List AddressDoc) (i : ℕ) :
    (s.map f).find? (fun a => a.id == i) = (s.find? (fun a => a.id == i)).map f := by
  induction s with
  | nil => rfl
  | cons a as ih =>
    rw [List.map_cons]
    by_cases ha : (a.id == i) = true
    · rw [List.find?_cons_of_pos (p := fun x => x.id == i) (as.map f) (by simpa [hid a] using ha),
        List.find?_cons_of_pos (p := fun x => x.id == i) as ha]
      rfl
    · rw [List.find?_cons_of_neg (p := fun x => x.id == i) (as.map f) (by simpa [hid a] using ha),
        List.find?_cons_of_neg (p := fun x => x.id == i) as (by simpa using ha), ih]

theorem unsetDefaults_user (u : ℕ) (a : AddressDoc) :
    ((fun a => if a.user == u then { a with isDefault := false } else a) a).user = a.user := by
  by_cases h : (a.user == u) = true <;> simp [h]

theorem unsetDefaults_id (u : ℕ) (a : AddressDoc) :
    ((fun a => if a.user == u then { a with isDefault := false } else a) a).id = a.id := by
  by_cases h : (a.user == u) = true <;> simp [h]

theorem unsetDefaultsExcept_user (u exceptId : ℕ) (a : AddressDoc) :
    ((fun a => if a.user == u && a.id != exceptId then { a with isDefault := false } else a) a).user
      = a.user := by
  by_cases h : (a.user == u && a.id != exceptId) = true <;> simp [h]

theorem unsetDefaultsExcept_id (u exceptId : ℕ) (a : AddressDoc) :
    ((fun a => if a.user == u && a.id != exceptId then { a with isDefault := false } else a) a).id
      = a.id := by
  by_cases h : (a.user == u && a.id != exceptId) = true <;> simp [h]

theorem defaultCount_unsetDefaults_self (u : ℕ) (s : List AddressDoc) :
    defaultCount (unsetDefaults u s) u = 0 := by
  unfold defaultCount unsetDefaults
  rw [List.countP_map]
  apply List.countP_eq_zero.mpr
  intro a _
  by_cases h : (a.user == u) = true <;> simp [Function.comp, h]

theorem defaultCount_unsetDefaults_ne (u u' : ℕ) (hne : u' ≠ u) (s : List AddressDoc) :
    defaultCount (unsetDefaults u s) u' = defaultCount s u' := by
  unfold defaultCount unsetDefaults
  rw [List.countP_map]
  apply List.countP_congr
  intro a _
  simp only [Function.comp]
  by_cases h : (a.user == u) = true
  · have hu : a.user = u := eq_of_beq h
    have hfalse : (a.user == u') = false := by
      rw [hu]
      exact beq_eq_false_iff_ne.mpr fun e => hne e.symm
    rw [if_pos h]
    simp [hfalse]
  · rw [if_neg h]

theorem userAddrCount_unsetDefaults (u u' : ℕ) (s : List AddressDoc) :
    userAddrCount (unsetDefaults u s) u' = userAddrCount s u' :=
  userAddrCount_map_user_preserved _ (unsetDefaults_user u) s u'

theorem defaultCount_unsetDefaultsExcept_ne (u u' exceptId : ℕ) (hne : u' ≠ u)
    (s : List AddressDoc) :
    defaultCount (unsetDefaultsExcept u exceptId s) u' = defaultCount s u' := by
  unfold defaultCount unsetDefaultsExcept
  rw [List.countP_map]
  apply List.countP_congr
  intro a _
  simp only [Function.comp]
  by_cases h : (a.user == u && a.id != exceptId) = true
  · have h1 : (a.user == u) = true := by
      rw [Bool.and_eq_true] at h
      exact h.1
    have hu : a.user = u := eq_of_beq h1
    have hfalse : (a.user == u') = false := by
      rw [hu]
      exact beq_eq_false_iff_ne.mpr fun e => hne e.symm
    rw [if_pos h]
    simp [hfalse]
  · rw [if_neg h]

theorem userAddrCount_unsetDefaultsExcept (u u' exceptId : ℕ) (s : List AddressDoc) :
    userAddrCount (unsetDefaultsExcept u exceptId s) u' = userAddrCount s u' :=
  userAddrCount_map_user_preserved _ (unsetDefaultsExcept_user u exceptId) s u'

theorem defaultCount_le_userAddrCount (s : List AddressDoc) (u : ℕ) :
    defaultCount s u ≤ userAddrCount s u :=
  List.countP_mono_left fun a _ h => by
    rw [Bool.and_eq_true] at h
    exact h.1

theorem defaultCount_append (s t : List AddressDoc) (u : ℕ) :
    defaultCount (s ++ t) u = defaultCount s u + defaultCount t u :=
  List.countP_append _ s t

theorem userAddrCount_append (s t : List AddressDoc) (u : ℕ) :
    userAddrCount (s ++ t) u = userAddrCount s u + userAddrCount t u :=
  List.countP_append _ s t

theorem defaultCount_singleton (a : AddressDoc) (u : ℕ) :
    defaultCount [a] u = if (a.user == u && a.isDefault) = true then 1 else 0 := by
  simp [defaultCount, List.countP_cons]

theorem userAddrCount_singleton (a : AddressDoc) (u : ℕ) :
    userAddrCount [a] u = if (a.user == u) = true then 1 else 0 := by
  simp [userAddrCount, List.countP_cons]

theorem countP_replaceFirst_of_false (p pr : α → Bool) (f : α → α) (l : List α) (y : α)
    (h : l.find? pr = some y) (h1 : p y = false) (h2 : p (f y) = false) :
    (replaceFirst pr f l).countP p = l.countP p := by
  have hc := countP_replaceFirst p pr f l y h
  rw [h1, h2] at hc
  simpa using hc

theorem countP_removeFirst_of_false (p pr : α → Bool) (l : List α) (x : α)
    (h : l.find? pr = some x) (h1 : p x = false) :
    (removeFirst pr l).countP p = l.countP p := by
  have hc := countP_removeFirst p pr l x h
  rw [h1] at hc
  simp at hc
  omega

/-! Claim C9: preservation of the unique-default invariant, op by op. -/

theorem addAddress_preserves (s : List AddressDoc) (u : ℕ) (d : Option Bool) (newId : ℕ)
    (hinv : uniqueDefaultInv s) : uniqueDefaultInv (addAddress s u d newId) := by
  simp only [addAddress]
  by_cases hquota : 3 ≤ (s.filter fun a => a.user == u).length
  · rw [if_pos hquota]
    exact hinv
  · rw [if_neg hquota]
    by_cases htr : (d == some true) = true
    · rw [if_pos htr]
      intro u' hu'
      by_cases hu : u' = u
      · subst u'
        rw [defaultCount_append, defaultCount_unsetDefaults_self, defaultCount_singleton]
        simp [htr]
      · rw [defaultCount_append, defaultCount_unsetDefaults_ne u u' hu, defaultCount_singleton]
        rw [userAddrCount_append, userAddrCount_unsetDefaults, userAddrCount_singleton] at hu'
        have hbeq : ((u : ℕ) == u') = false := beq_eq_false_iff_ne.mpr fun e => hu e.symm
        simp [hbeq] at hu' ⊢
        exact hinv u' hu'
    · rw [if_neg htr]
      have htr0 : (d == some true) = false := by
        rwa [Bool.not_eq_true] at htr
      by_cases hfirst : ((s.filter fun a => a.user == u).length == 0) = true
      · intro u' hu'
        by_cases hu : u' = u
        · subst u'
          have husercount : userAddrCount s u = 0 := by
            unfold userAddrCount
            rw [List.countP_eq_length_filter]
            exact eq_of_beq hfirst
          have hzero : defaultCount s u = 0 :=
            Nat.le_zero.mp (husercount ▸ defaultCount_le_userAddrCount s u)
          rw [defaultCount_append, defaultCount_singleton, hzero]
          simp [htr0, hfirst]
        · rw [defaultCount_append, defaultCount_singleton]
          rw [userAddrCount_append, userAddrCount_singleton] at hu'
          have hbeq : ((u : ℕ) == u') = false := beq_eq_false_iff_ne.mpr fun e => hu e.symm
          simp [hbeq] at hu' ⊢
          exact hinv u' hu'
      · have hfirst0 : ((s.filter fun a => a.user == u).length == 0) = false := by
          rwa [Bool.not_eq_true] at hfirst
        intro u' hu'
        rw [defaultCount_append, defaultCount_singleton]
        rw [userAddrCount_append, userAddrCount_singleton] at hu'
        by_cases hu : u' = u
        · subst u'
          simp [htr0, hfirst0]
          apply hinv
          unfold userAddrCount
          rw [List.countP_eq_length_filter]
          have := beq_eq_false_iff_ne.mp hfirst0
          omega
        · have hbeq : ((u : ℕ) == u') = false := beq_eq_false_iff_ne.mpr fun e => hu e.symm
          simp [hbeq] at hu' ⊢
          exact hinv u' hu'

theorem deleteAddress_preserves (s : List AddressDoc) (addrId : ℕ)
    (hinv : uniqueDefaultInv s) : uniqueDefaultInv (deleteAddress s addrId) := by
  simp only [deleteAddress]
  split
  · exact hinv
  · rename_i address hf
    have hmem : address ∈ s := List.mem_of_find?_eq_some hf
    by_cases hd : address.isDefault = true
    · rw [if_pos hd]
      intro u' hu'
      have hpos : 0 < userAddrCount s address.user :=
        List.countP_pos_iff.mpr ⟨address, hmem, by simp⟩
      have h1 : defaultCount s address.user = 1 := hinv _ hpos
      have h2 : defaultCount s address.user
          = defaultCount (removeFirst (fun a => a.id == addrId) s) address.user + 1 := by
        have hc := countP_removeFirst (fun a => a.user == address.user && a.isDefault)
          (fun a => a.id == addrId) s address hf
        simpa [defaultCount, hd] using hc
      have h0 : defaultCount (removeFirst (fun a => a.id == addrId) s) address.user = 0 := by
        omega
      by_cases hu : u' = address.user
      · subst hu
        cases hnext : (removeFirst (fun a => a.id == addrId) s).find?
            (fun a => a.user == address.user) with
        | none =>
          exfalso
          rw [replaceFirst_of_find?_none _ _ _ hnext] at hu'
          have hzero : userAddrCount (removeFirst (fun a => a.id == addrId) s) address.user = 0 :=
            List.countP_eq_zero.mpr (List.find?_eq_none.mp hnext)
          omega
        | some y =>
          have hyuser : (y.user == address.user) = true := by
            simpa using List.find?_some hnext
          have hymem := List.mem_of_find?_eq_some hnext
          have hpy : (y.user == address.user && y.isDefault) = false := by
            have hnp := List.countP_eq_zero.mp h0 y hymem
            rwa [Bool.not_eq_true] at hnp
          have hyd : y.isDefault = false := by
            simpa [hyuser] using hpy
          have hrep := countP_replaceFirst (fun a => a.user == address.user && a.isDefault)
            (fun a => a.user == address.user) (fun a => { a with isDefault := true })
            (removeFirst (fun a => a.id == addrId) s) y hnext
          have hfin : defaultCount (replaceFirst (fun a => a.user == address.user)
              (fun a => { a with isDefault := true })
              (removeFirst (fun a => a.id == addrId) s)) address.user
              = defaultCount (removeFirst (fun a => a.id == addrId) s) address.user + 1 := by
            simpa [defaultCount, hyuser, hyd] using hrep
          omega
      · have hbeq : (address.user == u') = false := beq_eq_false_iff_ne.mpr fun e => hu e.symm
        have hdc1 : defaultCount (removeFirst (fun a => a.id == addrId) s) u' = defaultCount s u' :=
          countP_removeFirst_of_false _ _ s address hf (by simp [hbeq])
        have huc1 : userAddrCount (removeFirst (fun a => a.id == addrId) s) u'
            = userAddrCount s u' :=
          countP_removeFirst_of_false _ _ s address hf hbeq
        cases hnext : (removeFirst (fun a => a.id == addrId) s).find?
            (fun a => a.user == address.user) with
        | none =>
          rw [replaceFirst_of_find?_none _ _ _ hnext] at hu' ⊢
          rw [hdc1]
          rw [huc1] at hu'
          exact hinv u' hu'
        | some y =>
          have hyuser : (y.user == address.user) = true := by
            simpa using List.find?_some hnext
          have hyu : y.user = address.user := eq_of_beq hyuser
          have hybeq : (y.user == u') = false := by rw [hyu]; exact hbeq
          have hdc2 : defaultCount (replaceFirst (fun a => a.user == address.user)
              (fun a => { a with isDefault := true })
              (removeFirst (fun a => a.id == addrId) s)) u'
              = defaultCount (removeFirst (fun a => a.id == addrId) s) u' :=
            countP_replaceFirst_of_false _ _ _ _ y hnext (by simp [hybeq]) (by simp [hybeq])
          have huc2 : userAddrCount (replaceFirst (fun a => a.user == address.user)
              (fun a => { a with isDefault := true })
              (removeFirst (fun a => a.id == addrId) s)) u'
              = userAddrCount (removeFirst (fun a => a.id == addrId) s) u' :=
            countP_replaceFirst_of_false _ _ _ _ y hnext hybeq (by simp [hybeq])
          rw [hdc2, hdc1]
          rw [huc2, huc1] at hu'
          exact hinv u' hu'
    · have hd0 : address.isDefault = false := by rwa [Bool.not_eq_true] at hd
      rw [if_neg hd]
      intro u' hu'
      by_cases hu : u' = address.user
      · subst hu
        have hdc : defaultCount (removeFirst (fun a => a.id == addrId) s) address.user
            = defaultCount s address.user :=
          countP_removeFirst_of_false _ _ s address hf (by simp [hd0])
        have hucnt := countP_removeFirst (fun a => a.user == address.user)
          (fun a => a.id == addrId) s address hf
        have hpos : 0 < userAddrCount s address.user := by
          simp at hucnt
          have h3 : userAddrCount s address.user
              = userAddrCount (removeFirst (fun a => a.id == addrId) s) address.user + 1 := hucnt
          omega
        rw [hdc]
        exact hinv _ hpos
      · have hbeq : (address.user == u') = false := beq_eq_false_iff_ne.mpr fun e => hu e.symm
        have hdc1 : defaultCount (removeFirst (fun a => a.id == addrId) s) u' = defaultCount s u' :=
          countP_removeFirst_of_false _ _ s address hf (by simp [hbeq])
        have huc1 : userAddrCount (removeFirst (fun a => a.id == addrId) s) u'
            = userAddrCount s u' :=
          countP_removeFirst_of_false _ _ s address hf hbeq
        rw [hdc1]
        rw [huc1] at hu'
        exact hinv u' hu'

theorem setDefaultAddress_preserves (s : List AddressDoc) (addrId : ℕ)
    (hinv : uniqueDefaultInv s) : uniqueDefaultInv (setDefaultAddress s addrId) := by
  simp only [setDefaultAddress]
  split
  · exact hinv
  · rename_i address hf
    have hfind1 : (unsetDefaults address.user s).find? (fun a => a.id == addrId)
        = some { address with isDefault := false } := by
      unfold unsetDefaults
      rw [find?_id_map _ (unsetDefaults_id address.user) s addrId, hf]
      simp
    intro u' hu'
    by_cases hu : u' = address.user
    · subst hu
      have h0 : defaultCount (unsetDefaults address.user s) address.user = 0 :=
        defaultCount_unsetDefaults_self _ _
      have hrep := countP_replaceFirst (fun a => a.user == address.user && a.isDefault)
        (fun a => a.id == addrId) (fun a => { a with isDefault := true })
        (unsetDefaults address.user s) _ hfind1
      have hfin : defaultCount (replaceFirst (fun a => a.id == addrId)
          (fun a => { a with isDefault := true }) (unsetDefaults address.user s)) address.user + 0
          = defaultCount (unsetDefaults address.user s) address.user + 1 := by
        simpa [defaultCount] using hrep
      omega
    · have hbeq : (address.user == u') = false := beq_eq_false_iff_ne.mpr fun e => hu e.symm
      have hdc2 : defaultCount (replaceFirst (fun a => a.id == addrId)
          (fun a => { a with isDefault := true }) (unsetDefaults address.user s)) u'
          = defaultCount (unsetDefaults address.user s) u' :=
        countP_replaceFirst_of_false _ _ _ _ _ hfind1 (by simp [hbeq]) (by simp [hbeq])
      have huc2 : userAddrCount (replaceFirst (fun a => a.id == addrId)
          (fun a => { a with isDefault := true }) (unsetDefaults address.user s)) u'
          = userAddrCount (unsetDefaults address.user s) u' :=
        countP_replaceFirst_of_false _ _ _ _ _ hfind1 (by simp [hbeq]) (by simp [hbeq])
      rw [hdc2, defaultCount_unsetDefaults_ne _ _ hu]
      rw [huc2, userAddrCount_unsetDefaults] at hu'
      exact hinv u' hu'

theorem updateAddress_preserves (s : List AddressDoc) (addrId : ℕ) (d : Option Bool)
    (hnodup : addrIdsNodup s) (hinv : uniqueDefaultInv s)
    (hsafe : ∀ a, s.find? (fun x => x.id == addrId) = some a → d = some false →
      a.isDefault = false) :
    uniqueDefaultInv (updateAddress s addrId d) := by
  simp only [updateAddress]
  split
  · exact hinv
  · rename_i address hf
    have hmem : address ∈ s := List.mem_of_find?_eq_some hf
    have hid : (address.id == addrId) = true := by
      simpa using List.find?_some hf
    by_cases hcond : (d == some true && !address.isDefault) = true
    · rw [if_pos hcond]
      have hparts : (d == some true) = true ∧ (!address.isDefault) = true := by
        rw [Bool.and_eq_true] at hcond
        exact hcond
      have hd : d = some true := eq_of_beq hparts.1
      have hnd : address.isDefault = false := by
        have h2 := hparts.2
        cases hb : address.isDefault
        · rfl
        · rw [hb] at h2
          simp at h2
      subst hd
      have hbne : (address.id != addrId) = false := by
        simp [bne, hid]
      have hcondf : (address.user == address.user && address.id != addrId) = false := by
        rw [hbne, Bool.and_false]
      have hfind1 : (unsetDefaultsExcept address.user addrId s).find? (fun a => a.id == addrId)
          = some address := by
        unfold unsetDefaultsExcept
        rw [find?_id_map _ (unsetDefaultsExcept_id address.user addrId) s addrId, hf]
        show some (if (address.user == address.user && address.id != addrId) = true
            then { address with isDefault := false } else address) = some address
        rw [hcondf, if_neg (by simp : ¬(false = true))]
      intro u' hu'
      by_cases hu : u' = address.user
      · subst hu
        have h0 : defaultCount (unsetDefaultsExcept address.user addrId s) address.user = 0 := by
          unfold defaultCount unsetDefaultsExcept
          rw [List.countP_map]
          apply List.countP_eq_zero.mpr
          intro y hy
          simp only [Function.comp]
          by_cases hc : (y.user == address.user && y.id != addrId) = true
          · rw [if_pos hc]
            simp
          · rw [if_neg hc]
            intro hpy
            rw [Bool.and_eq_true] at hpy
            obtain ⟨hyu, hyd⟩ := hpy
            have hyid : (y.id != addrId) = false := by
              cases hx : (y.id != addrId)
              · rfl
              · exact absurd (by rw [Bool.and_eq_true]; exact ⟨hyu, hx⟩) hc
            have hyid2 : y.id = addrId := by
              have : (y.id == addrId) = true := by
                simpa [bne] using hyid
              exact eq_of_beq this
            have hyeq : y = address := by
              apply List.inj_on_of_nodup_map hnodup hy hmem
              show y.id = address.id
              rw [hyid2]
              exact (eq_of_beq hid).symm
            rw [hyeq, hnd] at hyd
            cases hyd
        have hrep := countP_replaceFirst (fun a => a.user == address.user && a.isDefault)
          (fun a => a.id == addrId)
          (fun a => { a with isDefault := (some true).getD a.isDefault })
          (unsetDefaultsExcept address.user addrId s) address hfind1
        have hfin : defaultCount (replaceFirst (fun a => a.id == addrId)
            (fun a => { a with isDefault := (some true).getD a.isDefault })
            (unsetDefaultsExcept address.user addrId s)) address.user + 0
            = defaultCount (unsetDefaultsExcept address.user addrId s) address.user + 1 := by
          simpa [defaultCount, hnd] using hrep
        have h0' : defaultCount (unsetDefaultsExcept address.user addrId s) address.user = 0 := h0
        omega
      · have hbeq : (address.user == u') = false := beq_eq_false_iff_ne.mpr fun e => hu e.symm
        have hdc1 : defaultCount (unsetDefaultsExcept address.user addrId s) u'
            = defaultCount s u' :=
          defaultCount_unsetDefaultsExcept_ne _ _ _ hu s
        have huc1 : userAddrCount (unsetDefaultsExcept address.user addrId s) u'
            = userAddrCount s u' :=
          userAddrCount_unsetDefaultsExcept _ _ _ s
        have hdc2 : defaultCount (replaceFirst (fun a => a.id == addrId)
            (fun a => { a with isDefault := (some true).getD a.isDefault })
            (unsetDefaultsExcept address.user addrId s)) u'
            = defaultCount (unsetDefaultsExcept address.user addrId s) u' :=
          countP_replaceFirst_of_false _ _ _ _ _ hfind1 (by simp [hbeq]) (by simp [hbeq])
        have huc2 : userAddrCount (replaceFirst (fun a => a.id == addrId)
            (fun a => { a with isDefault := (some true).getD a.isDefault })
            (unsetDefaultsExcept address.user addrId s)) u'
            = userAddrCount (unsetDefaultsExcept address.user addrId s) u' :=
          countP_replaceFirst_of_false _ _ _ _ _ hfind1 hbeq (by simp [hbeq])
        rw [hdc2, hdc1]
        rw [huc2, huc1] at hu'
        exact hinv u' hu'
    · rw [if_neg hcond]
      have hfx : (fun a => ({ a with isDefault := d.getD a.isDefault } : AddressDoc)) address
          = address := by
        cases d with
        | none => rfl
        | some b =>
          cases b with
          | true =>
            have hnd : address.isDefault = true := by
              cases hb : address.isDefault
              · exfalso
                apply hcond
                rw [Bool.and_eq_true]
                exact ⟨by simp, by simp [hb]⟩
              · rfl
            show ({ address with isDefault := (some true).getD address.isDefault } : AddressDoc)
                = address
            rw [show (some true).getD address.isDefault = true from rfl, ← hnd]
          | false =>
            have hnd : address.isDefault = false := hsafe address hf rfl
            show ({ address with isDefault := (some false).getD address.isDefault } : AddressDoc)
                = address
            rw [show (some false).getD address.isDefault = false from rfl, ← hnd]
      rw [replaceFirst_of_fix _ _ s address hf hfx]
      exact hinv

/-- C9 counterexample: a user adds their first address (which becomes the
default automatically) and then updates it with `isDefault: false` — the
update is accepted and leaves the user with one address and zero defaults,
so the claimed invariant fails after this add/update sequence. -/
theorem claim_C9_default_invariant_counterexample :
    updateAddress (addAddress [] 0 none 1) 1 (some false)
      = [{ id := 1, user := 0, isDefault := false }]
    ∧ userAddrCount [({ id := 1, user := 0, isDefault := false } : AddressDoc)] 0 = 1
    ∧ ¬ uniqueDefaultInv [{ id := 1, user := 0, isDefault := false }] := by
  refine ⟨rfl, rfl, ?_⟩
  intro h
  have h0 := h 0 (by decide)
  exact absurd h0 (by decide)

/-- C9 (amended): after any sequence of adds, deletes and set-default calls,
and of updates that do not set `isDefault: false` on the user's current
default address, every user with at least one address has exactly one default
(given unique address ids, as Mongo guarantees); the excluded update is
exactly the operation the counterexample shows breaking the invariant. -/
theorem claim_C9_default_invariant_amended :
    (∀ s u d newId, uniqueDefaultInv s → uniqueDefaultInv (addAddress s u d newId))
    ∧ (∀ s addrId, uniqueDefaultInv s → uniqueDefaultInv (deleteAddress s addrId))
    ∧ (∀ s addrId, uniqueDefaultInv s → uniqueDefaultInv (setDefaultAddress s addrId))
    ∧ (∀ s addrId d, addrIdsNodup s → uniqueDefaultInv s →
        (∀ a, s.find? (fun x => x.id == addrId) = some a → d = some false →
          a.isDefault = false) →
        uniqueDefaultInv (updateAddress s addrId d)) :=
  ⟨fun s u d newId h => addAddress_preserves s u d newId h,
   fun s addrId h => deleteAddress_preserves s addrId h,
   fun s addrId h => setDefaultAddress_preserves s addrId h,
   fun s addrId d h1 h2 h3 => updateAddress_preserves s addrId d h1 h2 h3⟩

/-- A two-address fixture for user 5 satisfying the invariant. -/
def exAddrs : List AddressDoc :=
  [{ id := 1, user := 5, isDefault := true }, { id := 2, user := 5, isDefault := false }]

theorem exAddrs_inv : uniqueDefaultInv exAddrs := by
  intro u hu
  by_cases h : u = 5
  · subst h
    decide
  · exfalso
    have hzero : userAddrCount exAddrs u = 0 := by
      apply List.countP_eq_zero.mpr
      intro a ha
      have : a.user = 5 := by
        simp only [exAddrs, List.mem_cons, List.not_mem_nil, or_false] at ha
        rcases ha with rfl | rfl <;> rfl
      intro hbeq
      exact h ((eq_of_beq hbeq).symm.trans this)
    omega

/-- Witness for C9 (amended): the four preservation facts applied to concrete
states. -/
theorem claim_C9_default_invariant_amended_witness :
    uniqueDefaultInv (addAddress exAddrs 5 none 3)
    ∧ uniqueDefaultInv (deleteAddress exAddrs 1)
    ∧ uniqueDefaultInv (setDefaultAddress exAddrs 2)
    ∧ uniqueDefaultInv (updateAddress exAddrs 2 (some true)) :=
  ⟨claim_C9_default_invariant_amended.1 exAddrs 5 none 3 exAddrs_inv,
   claim_C9_default_invariant_amended.2.1 exAddrs 1 exAddrs_inv,
   claim_C9_default_invariant_amended.2.2.1 exAddrs 2 exAddrs_inv,
   claim_C9_default_invariant_amended.2.2.2 exAddrs 2 (some true)
     (by simp only [addrIdsNodup]; decide) exAddrs_inv
     (fun a _ hcontra => by cases hcontra)⟩

end Vadi
